import Mathlib

/-!
# Verification of the fittrack activity pipeline

A shallow embedding of the core of the fittrack repository: the
distance-duration rule engine (`client/src/lib/validations.ts` and the
inlined copy in the `POST /api/activities` route), the activity ingestion
and proof policy, the Strava token freshness step and webhook processor
(`server/routes/strava.ts`, `server/routes/strava-webhook.ts`,
`server/strava.ts`), the CSV user import (`server/routes/import.ts`) and
the two leaderboard implementations (`server/storage.ts`).

JavaScript numbers are modelled as `ℚ` (the values occurring in the rule
table and in the arithmetic of these functions are exact decimals), JS
timestamps as `ℤ`, nullable fields as `Option`, and JS truthiness on
nullable strings by `truthy` below.
-/

namespace FitTrack

section RatReducible

/- Core Lean marks the arithmetic on `Rat` `irreducible`, which blocks
`decide`/`rfl` evaluation of concrete rational computations; restore the
default reducibility locally so witnesses can be checked by evaluation. -/
attribute [local semireducible] Rat.add Rat.sub Rat.mul Rat.inv Rat.ofScientific

set_option maxRecDepth 8000

/-- JS truthiness of a nullable string value: `null`/`undefined` and the
empty string are falsy, every other string is truthy. -/
def truthy : Option String → Bool
  | none => false
  | some s => s ≠ ""

/-! ## Distance-duration rule engine

From `validateActivityTime` in `client/src/lib/validations.ts` (minutes
input) and the identical inlined block of the `POST /api/activities`
route (seconds input).  The JS object literal `validationRules` has the
integer-like keys `1, 2, 5, 10, 15` enumerated by `Object.keys` in
ascending numeric order before the non-integer keys `21.1, 42.2`, which
keep insertion order; the resulting key order is the list order below. -/

/-- The fixed table of canonical distances (km) with their
`{min, max}` plausible-duration bounds in seconds. -/
def validationRules : List (ℚ × ℚ × ℚ) :=
  [(1, 180, 900),
   (2, 360, 1800),
   (5, 1200, 4500),
   (10, 2100, 7200),
   (15, 3600, 10800),
   (21.1, 4800, 12600),
   (42.2, 10800, 24000)]

/-- `Object.keys(validationRules).map(Number)`. -/
def distanceKeys : List ℚ := validationRules.map (·.1)

/-- One step of the `reduce` callback:
`(prev, curr) => Math.abs(curr - distance) < Math.abs(prev - distance) ? curr : prev`. -/
def closerKey (distance prev curr : ℚ) : ℚ :=
  if |curr - distance| < |prev - distance| then curr else prev

/-- `distanceKeys.reduce(...)`: JS `reduce` with no initial value starts
from the first element. -/
def closestDistance (distance : ℚ) : ℚ :=
  match distanceKeys with
  | [] => 0
  | k :: ks => ks.foldl (closerKey distance) k

/-- Object lookup `validationRules[closestDistance]`; total because the
argument is always one of the keys. -/
def ruleFor (c : ℚ) : ℚ × ℚ :=
  match validationRules.find? (fun r => decide (r.1 = c)) with
  | some r => (r.2.1, r.2.2)
  | none => (0, 0)

/-- Rendering of the JS numbers appearing in the failure message
(`${closestDistance}`, `${rule.min/60}`, `${rule.max/60}`): integers
print without a decimal point, the table's tenth-valued keys print with
one decimal digit. -/
def jsNumToString (q : ℚ) : String :=
  if q.den = 1 then toString q.num
  else toString (q.num / 10) ++ "." ++ toString (q.num % 10)

/-- The template literal
`` `Invalid duration for ${c}KM. Duration must be between ${min/60}-${max/60} minutes.` ``. -/
def invalidDurationMessage (c mn mx : ℚ) : String :=
  "Invalid duration for " ++ jsNumToString c ++
    "KM. Duration must be between " ++ jsNumToString (mn / 60) ++ "-" ++
    jsNumToString (mx / 60) ++ " minutes."

/-- The duration check of the `POST /api/activities` route
(`registerRoutes`, server side): `activityData.duration` is in seconds.
Returns `some message` when the 400 rejection fires, `none` when the
check passes. -/
def activityDurationCheck (distance duration : ℚ) : Option String :=
  let c := closestDistance distance
  if |c - distance| < 0.5 then
    let rule := ruleFor c
    if duration < rule.1 ∨ duration > rule.2 then
      some (invalidDurationMessage c rule.1 rule.2)
    else none
  else none

/-- `validateActivityTime(distance, durationMinutes)` from
`client/src/lib/validations.ts`: converts minutes to seconds
(`durationMinutes * 60`) and runs the same table and algorithm. -/
def validateActivityTime (distance durationMinutes : ℚ) : Option String :=
  let durationSeconds := durationMinutes * 60
  let c := closestDistance distance
  if |c - distance| < 0.5 then
    let rule := ruleFor c
    if durationSeconds < rule.1 ∨ durationSeconds > rule.2 then
      some (invalidDurationMessage c rule.1 rule.2)
    else none
  else none

/-! ## Data model

`Activity` mirrors the `activities` row type exactly as declared in
`@shared/schema` and created by migration `0000_common_warpath.sql`:
`id`, `user_id`, `type`, `date`, `distance`, `duration`, `title`,
`description`, `proof_link`, `proof_image` (plus `created_at`, which is
never read by the modelled operations and is omitted).  The table has
NO `external_id`/`external_source`/`elevation_gain`/`avg_heart_rate`
columns, so stored rows cannot hold those values even though the
Strava import paths put them on the insert payload.  Timestamps are
epoch milliseconds (`ℤ`), JS numbers are `ℚ`, nullable columns are
`Option`. -/

structure Activity where
  id : ℕ
  userId : ℕ
  type : String
  date : ℤ
  distance : ℚ
  duration : ℚ
  title : String
  description : Option String
  proofLink : Option String
  proofImage : Option String
deriving DecidableEq

/-- The payload object handed to `storage.createActivity`.  The two
Strava import paths build it with the extra
`externalId`/`externalSource`/`elevationGain`/`avgHeartRate` members;
the manual route's payload (parsed by `insertActivitySchema`, which is
generated from the table) leaves them `none`. -/
structure InsertActivity where
  userId : ℕ
  type : String
  date : ℤ
  distance : ℚ
  duration : ℚ
  title : String
  description : Option String
  proofLink : Option String
  proofImage : Option String
  externalId : Option String
  externalSource : Option String
  elevationGain : Option ℤ
  avgHeartRate : Option ℚ
deriving DecidableEq

/-- The stored row produced for an insert payload: drizzle emits only
the schema columns, so the payload's extension members (`externalId`,
`externalSource`, `elevationGain`, `avgHeartRate`) are dropped on
insert — the table has no columns for them.  The serial `id` column
assigns the next free id (no deletions occur in the modelled flows). -/
def mkStored (store : List Activity) (a : InsertActivity) : Activity :=
  { id := store.length + 1, userId := a.userId, type := a.type, date := a.date,
    distance := a.distance, duration := a.duration, title := a.title,
    description := a.description, proofLink := a.proofLink,
    proofImage := a.proofImage }

/-- `storage.createActivity`: inserts one row. -/
def createActivity (store : List Activity) (a : InsertActivity) : List Activity :=
  store ++ [mkStored store a]

/-- The JS property access `a.externalId` on a row selected from the
`activities` table: the column does not exist in the schema, so the
access yields `undefined` (modelled `none`) on every stored row. -/
def storedExternalId (_ : Activity) : Option String := none

/-- The `athlete` object inside a stored credential envelope; only its
`id` is ever read (`tokenData.athlete.id`). -/
structure AthleteInfo where
  id : ℕ
deriving DecidableEq

/-- The fields of a parsed credential envelope that the sync and webhook
code reads: `access_token`, `refresh_token`, `expires_at` (unix
seconds), and the optional `athlete` object. -/
structure TokenData where
  access_token : String
  refresh_token : String
  expires_at : ℚ
  athlete : Option AthleteInfo
deriving DecidableEq

/-- The serialized JSON blob in `users.strava_token`: either a parseable
envelope or garbage (`JSON.parse` throws, resolver skips it). -/
inductive StoredToken where
  | invalid
  | valid (t : TokenData)
deriving DecidableEq

/-- The `{accessToken, refreshToken, expiresAt}` triple returned by
`refreshStravaToken` (`server/strava.ts`). -/
structure TokenTriple where
  accessToken : String
  refreshToken : String
  expiresAt : ℚ
deriving DecidableEq

/-- `JSON.stringify(refreshedToken)` then later `JSON.parse`: the
persisted envelope after a refresh carries exactly the triple and no
`athlete` member. -/
def storedOfTriple (t : TokenTriple) : StoredToken :=
  .valid { access_token := t.accessToken, refresh_token := t.refreshToken,
           expires_at := t.expiresAt, athlete := none }

/-- Users: the fields of the `users` table read by the modelled
operations (`id`, `name`, `email`, `gender`, `stravaToken`); the
remaining profile columns are never read by them. -/
structure StoredUser where
  id : ℕ
  clientId : ℕ
  email : String
  name : String
  gender : String
  stravaToken : Option StoredToken
deriving DecidableEq

/-! ## Activity ingestion and proof policy (`POST /api/activities`) -/

/-- The response of the `POST /api/activities` handler. -/
inductive PostResponse where
  | created (a : Activity)
  | badRequest (msg : String)
deriving DecidableEq

/-- The `POST /api/activities` handler after schema validation: the
inline duration check (identical to the rule engine, duration in
seconds), then the proof requirement for distances of 10 km or more
(JS truthiness on `proofLink`/`proofImage`), then persistence. -/
def postActivity (store : List Activity) (cand : InsertActivity) :
    List Activity × PostResponse :=
  match activityDurationCheck cand.distance cand.duration with
  | some msg => (store, .badRequest msg)
  | none =>
    if cand.distance ≥ 10 ∧ truthy cand.proofLink = false ∧ truthy cand.proofImage = false then
      (store, .badRequest "Proof is required for activities of 10 KM or more")
    else
      (createActivity store cand, .created (mkStored store cand))

/-! ## Leaderboard aggregation (`MemStorage` / `DatabaseStorage`)

`Array.prototype.sort` with a comparator is stable, so both sorts are
modelled by `List.insertionSort` (the stable sort) under the
"precedes-or-ties" relation of the comparator. -/

/-- A leaderboard entry as produced by both implementations
(`activities` is the per-user activity count). -/
structure LeaderboardEntry where
  userId : ℕ
  name : String
  totalDistance : ℚ
  totalDuration : ℚ
  activities : ℕ
deriving DecidableEq

/-- `user.name || user.email.split('@')[0]`. -/
def displayName (u : StoredUser) : String :=
  if u.name = "" then u.email.takeWhile (fun c => c ≠ '@') else u.name

/-- Ordering of the date-descending sort in
`MemStorage.listActivitiesByUser`
(`(a, b) => b.date.getTime() - a.date.getTime()`). -/
def dateDesc (a b : Activity) : Prop := b.date ≤ a.date

instance : DecidableRel dateDesc := fun a b =>
  inferInstanceAs (Decidable (b.date ≤ a.date))

instance : IsTotal Activity dateDesc := ⟨fun a b => le_total b.date a.date⟩

instance : IsTrans Activity dateDesc :=
  ⟨fun _ _ _ hab hbc => le_trans hbc hab⟩

/-- Ordering of the leaderboard sort
(`(a, b) => b.totalDistance - a.totalDistance`). -/
def distDesc (a b : LeaderboardEntry) : Prop :=
  b.totalDistance ≤ a.totalDistance

instance : DecidableRel distDesc := fun a b =>
  inferInstanceAs (Decidable (b.totalDistance ≤ a.totalDistance))

instance : IsTotal LeaderboardEntry distDesc :=
  ⟨fun a b => le_total b.totalDistance a.totalDistance⟩

instance : IsTrans LeaderboardEntry distDesc :=
  ⟨fun _ _ _ hab hbc => le_trans hbc hab⟩

/-- `listActivitiesByUser`: the user's activities, newest first. -/
def listActivitiesByUser (store : List Activity) (uid : ℕ) : List Activity :=
  List.insertionSort dateDesc (store.filter (fun a => a.userId == uid))

/-- One iteration of the `MemStorage.getLeaderboard` loop body for one
user: type-filter the user's activities, skip the user when none
remain, otherwise aggregate. -/
def memEntry (store : List Activity) (type : String) (u : StoredUser) :
    Option LeaderboardEntry :=
  let userActivities := listActivitiesByUser store u.id
  let userActivities :=
    if type = "all" then userActivities
    else userActivities.filter (fun a => a.type == type)
  if userActivities.length = 0 then none
  else some ⟨u.id, displayName u, (userActivities.map (·.distance)).sum,
    (userActivities.map (·.duration)).sum, userActivities.length⟩

/-- `MemStorage.getLeaderboard(type, gender, limit)`. -/
def memGetLeaderboard (usersL : List StoredUser) (store : List Activity)
    (type gender : String) (limit : ℕ) : List LeaderboardEntry :=
  let filteredUsers :=
    if gender = "all" then usersL
    else usersL.filter (fun u => u.gender == gender)
  let entries := filteredUsers.filterMap (memEntry store type)
  (List.insertionSort distDesc entries).take limit

/-- The `userActivitiesMap` built by `DatabaseStorage.getLeaderboard`:
a `Map<number, Activity[]>` populated by pushing each activity onto its
`userId` bucket in encounter order; only `get` is ever applied to it. -/
def groupByUser (as : List Activity) : ℕ → List Activity :=
  as.foldl (fun m a => fun k => if k = a.userId then m k ++ [a] else m k)
    (fun _ => [])

/-- The `.map` body of `DatabaseStorage.getLeaderboard` for one user
(`null` when the user has no matching activities; the later
`.filter(Boolean)` drops those). -/
def dbEntry (grouped : ℕ → List Activity) (u : StoredUser) :
    Option LeaderboardEntry :=
  let userActivities := grouped u.id
  if userActivities.length = 0 then none
  else some ⟨u.id, displayName u, (userActivities.map (·.distance)).sum,
    (userActivities.map (·.duration)).sum, userActivities.length⟩

/-- The entry list of `DatabaseStorage.getLeaderboard` before sorting
and truncation: gender-filtered users, mapped over the grouped
type-filtered activities, with `null`s dropped. -/
def leaderboardEntries (usersL : List StoredUser) (store : List Activity)
    (type gender : String) : List LeaderboardEntry :=
  let filteredUsers :=
    if gender = "all" then usersL
    else usersL.filter (fun u => u.gender == gender)
  let allActivities :=
    if type = "all" then store
    else store.filter (fun a => a.type == type)
  filteredUsers.filterMap (dbEntry (groupByUser allActivities))

/-- `DatabaseStorage.getLeaderboard(type, gender, limit)`. -/
def dbGetLeaderboard (usersL : List StoredUser) (store : List Activity)
    (type gender : String) (limit : ℕ) : List LeaderboardEntry :=
  (List.insertionSort distDesc (leaderboardEntries usersL store type gender)).take limit

/-! ## Strava import (`server/routes/strava.ts`, `server/routes/strava-webhook.ts`) -/

/-- A remote activity as returned by the Strava activities endpoint
(the fields the import code reads). -/
structure StravaActivity where
  id : ℕ
  type : String
  start_date : ℤ
  distance : ℚ
  moving_time : ℚ
  name : String
  description : Option String
  external_id : Option String
  total_elevation_gain : ℚ
  average_heartrate : Option ℚ
deriving DecidableEq

/-- `x || null` on a nullable string (empty string is falsy). -/
def jsOrNull (s : Option String) : Option String :=
  if truthy s then s else none

/-- `x || null` on a nullable number (`0` is falsy). -/
def jsNumOrNull : Option ℚ → Option ℚ
  | none => none
  | some v => if v = 0 then none else some v

/-- `Math.round`. -/
def jsRound (q : ℚ) : ℤ := round q

/-- `parseFloat((x).toFixed(2))`: round to two decimals. -/
def jsToFixed2 (q : ℚ) : ℚ := ((jsRound (q * 100) : ℤ) : ℚ) / 100

/-- The conversion of a fetched Strava activity into an insert payload,
identical in the manual-sync loop and the webhook processor: type is
normalized to `"run"`, meters become kilometers rounded to two decimals,
`externalId` is the remote id as a string, `externalSource` is
`"strava"`. -/
def convertStravaActivity (uid : ℕ) (a : StravaActivity) : InsertActivity :=
  { userId := uid, type := "run", date := a.start_date,
    distance := jsToFixed2 (a.distance / 1000),
    duration := ((jsRound a.moving_time : ℤ) : ℚ),
    title := a.name, description := jsOrNull a.description,
    proofLink := jsOrNull a.external_id, proofImage := none,
    externalId := some (toString a.id), externalSource := some "strava",
    elevationGain := some (jsRound a.total_elevation_gain),
    avgHeartRate := jsNumOrNull a.average_heartrate }

/-- One iteration of the `POST /sync-activities` per-activity loop:
skip non-`Run` activities, then the duplicate check
`userActivities.filter(a => a.externalId === activity.id.toString())`
against the pre-fetched `userActivities` — note that the stored rows
have no `externalId` column, so the read yields `undefined`
(`storedExternalId`) — otherwise persist and count the import. -/
def syncStep (uid : ℕ) (userActivities : List Activity)
    (acc : List Activity × ℕ) (a : StravaActivity) : List Activity × ℕ :=
  if a.type ≠ "Run" then acc
  else if 0 < (userActivities.filter
      (fun b => storedExternalId b == some (toString a.id))).length then acc
  else (createActivity acc.1 (convertStravaActivity uid a), acc.2 + 1)

/-- The `POST /sync-activities` loop over the fetched activities,
threading the store and the `imported` counter. -/
def syncLoop (uid : ℕ) (userActivities : List Activity)
    (store : List Activity) (imported : ℕ) (activities : List StravaActivity) :
    List Activity × ℕ :=
  activities.foldl (syncStep uid userActivities) (store, imported)

/-- One `POST /sync-activities` call whose Strava fetch returned
`remote`: `userActivities` is fetched once before the loop. -/
def syncCall (store : List Activity) (uid : ℕ) (remote : List StravaActivity) :
    List Activity × ℕ :=
  syncLoop uid (listActivitiesByUser store uid) store 0 remote

/-! ## OAuth token freshness step

The block shared by `POST /sync-activities` (lines 89–109) and
`processWebhookEvent` (lines 112–133): compare `expires_at` against
`Date.now()/1000`, on expiry call `refreshStravaToken` once, persist the
stringified refreshed triple onto the owning user, and only then run the
activities fetch with the new access token.  The step is modelled as the
list of externally visible events in program order (provider client id
and secret are assumed configured). -/

inductive TokenEvent where
  | refreshCall (refreshToken : String)
  | persistToken (uid : ℕ) (tok : StoredToken)
  | fetchActivities (accessToken : String)
deriving DecidableEq

/-- Recognizer for refresh calls in an event trace. -/
def isRefreshCall : TokenEvent → Bool
  | .refreshCall _ => true
  | _ => false

/-- The freshness step: the produced event trace, and the access token
handed to the fetch (`none` when the refresh failed and the operation
aborted). -/
def tokenFreshnessStep (now : ℚ) (uid : ℕ) (t : TokenData)
    (oracle : String → Except String TokenTriple) :
    List TokenEvent × Option String :=
  if now > t.expires_at then
    match oracle t.refresh_token with
    | .error _ => ([.refreshCall t.refresh_token], none)
    | .ok triple =>
      ([.refreshCall t.refresh_token,
        .persistToken uid (storedOfTriple triple),
        .fetchActivities triple.accessToken], some triple.accessToken)
  else ([.fetchActivities t.access_token], some t.access_token)

/-! ## Webhook event processor (`processWebhookEvent`) -/

/-- The normal (non-error) terminations of `processWebhookEvent`; each
is a plain `return`, not a thrown error. -/
inductive WebhookResult where
  | ignoredObjectType
  | ignoredAspectType
  | noUser
  | noActivities
  | activityNotFound
  | notRun
  | duplicate
  | imported
deriving DecidableEq

/-- Outcome of one webhook processing run: a normal return, or an error
caught and logged by the processor's `catch`. -/
inductive WebhookOutcome where
  | ok (r : WebhookResult)
  | failed (msg : String)
deriving DecidableEq

/-- The Strava push event envelope. -/
structure WebhookEvent where
  object_type : String
  object_id : ℕ
  aspect_type : String
  owner_id : ℕ
deriving DecidableEq

/-- The athlete/token identity resolver: scan all users, skip users
without a token or with an unparseable one, and return the first whose
envelope's `athlete.id` equals the event's `owner_id`. -/
def resolveUserByAthleteId (usersL : List StoredUser) (ownerId : ℕ) :
    Option StoredUser :=
  usersL.find? (fun u =>
    match u.stravaToken with
    | some (.valid t) =>
      match t.athlete with
      | some a => a.id == ownerId
      | none => false
    | _ => false)

/-- `storage.updateUser(id, { stravaToken })`. -/
def updateUserToken (usersL : List StoredUser) (uid : ℕ) (tok : StoredToken) :
    List StoredUser :=
  usersL.map (fun u => if u.id = uid then { u with stravaToken := some tok } else u)

/-- `processWebhookEvent(event)`: filter by object and aspect type,
resolve the owning user, refresh the token if expired (persisting the
refreshed envelope), fetch activities (`fetched` is the provider's
response), locate the event's activity, skip non-runs and duplicates,
otherwise persist the converted activity.  Returns the user store, the
activity store and the outcome. -/
def processWebhookEvent (now : ℚ) (oracle : String → Except String TokenTriple)
    (fetched : Except String (List StravaActivity))
    (usersL : List StoredUser) (store : List Activity) (event : WebhookEvent) :
    List StoredUser × List Activity × WebhookOutcome :=
  if event.object_type ≠ "activity" then (usersL, store, .ok .ignoredObjectType)
  else if event.aspect_type ≠ "create" then (usersL, store, .ok .ignoredAspectType)
  else
    match resolveUserByAthleteId usersL event.owner_id with
    | none => (usersL, store, .ok .noUser)
    | some targetUser =>
      match targetUser.stravaToken with
      | some (.valid tokenData) =>
        let refreshed : Except String (List StoredUser × String) :=
          if now > tokenData.expires_at then
            match oracle tokenData.refresh_token with
            | .error e => .error e
            | .ok triple =>
              .ok (updateUserToken usersL targetUser.id (storedOfTriple triple),
                triple.accessToken)
          else .ok (usersL, tokenData.access_token)
        match refreshed with
        | .error e => (usersL, store, .failed e)
        | .ok (usersL', _) =>
          match fetched with
          | .error e => (usersL', store, .failed e)
          | .ok activities =>
            if activities.length = 0 then (usersL', store, .ok .noActivities)
            else
              match activities.find? (fun a => a.id == event.object_id) with
              | none => (usersL', store, .ok .activityNotFound)
              | some activity =>
                if activity.type ≠ "Run" then (usersL', store, .ok .notRun)
                else
                  match (listActivitiesByUser store targetUser.id).find?
                      (fun b => storedExternalId b == some (toString event.object_id)) with
                  | some _ => (usersL', store, .ok .duplicate)
                  | none =>
                    (usersL',
                     createActivity store (convertStravaActivity targetUser.id activity),
                     .ok .imported)
      | _ =>
        -- unreachable: the resolver only returns users with a parseable envelope
        (usersL, store, .failed "invalid token")

/-! ## Webhook verification handshake (`GET /`) -/

/-- The two possible responses of the verification endpoint. -/
inductive VerifyResponse where
  | challenge (c : Option String)
  | forbidden
deriving DecidableEq

/-- The webhook verification `GET` handler: echo `hub.challenge` when
`hub.mode === 'subscribe'` and `hub.verify_token` matches the pre-shared
secret, otherwise a 403. -/
def webhookVerify (secret : String) (mode token challenge : Option String) :
    VerifyResponse :=
  if mode = some "subscribe" ∧ token = some secret then .challenge challenge
  else .forbidden

/-! ## CSV user import (`server/routes/import.ts`, `POST /csv`)

Each row is validated by `csvRowSchema.parse` (a zod schema whose
internals — e-mail syntax in particular — are library code); it is
modelled as a `parseRow` parameter returning either the validated row or
the thrown validation message.  Generated athlete ids and temporary
passwords do not influence control flow and are omitted; stored users
keep the modelled columns. -/

/-- The CSV columns the modelled store retains (the remaining columns
are copied through and never read back by the modelled operations). -/
structure CsvRow where
  name : String
  email : String
  gender : String
deriving DecidableEq

/-- One iteration of the per-row loop: validate, reject duplicate
e-mails (against the store, which includes rows inserted earlier in the
same batch), otherwise insert; every row adds exactly one outcome
(`success` increment or an error entry carrying its 1-based row
number), and a failure only appends an error — it never stops the
fold. -/
def csvStep (parseRow : CsvRow → Except String CsvRow) (clientId : ℕ)
    (st : List StoredUser × ℕ × List (ℕ × String)) (ir : ℕ × CsvRow) :
    List StoredUser × ℕ × List (ℕ × String) :=
  match parseRow ir.2 with
  | .error e => (st.1, st.2.1, st.2.2 ++ [(ir.1 + 1, e)])
  | .ok v =>
    if (st.1.find? (fun u => u.email == v.email)).isSome then
      (st.1, st.2.1,
       st.2.2 ++ [(ir.1 + 1, "User with email " ++ v.email ++ " already exists")])
    else
      (st.1 ++ [⟨st.1.length + 1, clientId, v.email, v.name, v.gender, none⟩],
       st.2.1 + 1, st.2.2)

/-- The loop over the rows starting at row index `i₀`. -/
def csvImportFrom (parseRow : CsvRow → Except String CsvRow) (clientId : ℕ)
    (st : List StoredUser × ℕ × List (ℕ × String)) (i₀ : ℕ)
    (rows : List CsvRow) : List StoredUser × ℕ × List (ℕ × String) :=
  (rows.enumFrom i₀).foldl (csvStep parseRow clientId) st

/-- `POST /csv`: run the loop from a fresh `{success: 0, errors: []}`
accumulator and respond with the per-item results. -/
def csvImport (parseRow : CsvRow → Except String CsvRow) (clientId : ℕ)
    (usersL : List StoredUser) (rows : List CsvRow) :
    List StoredUser × ℕ × List (ℕ × String) :=
  csvImportFrom parseRow clientId (usersL, 0, []) 0 rows

example : activityDurationCheck 10 2000 =
    some "Invalid duration for 10KM. Duration must be between 35-120 minutes." := by
  decide

example : activityDurationCheck 10 2100 = none := by decide
example : activityDurationCheck 21.3 4799 = some
    "Invalid duration for 21.1KM. Duration must be between 80-210 minutes." := by decide
example : activityDurationCheck 3.5 1 = none := by decide
example : closestDistance 1.5 = 1 := by decide
example : closestDistance 3.5 = 2 := by decide

/-- The `reduce` in the rule engine computes the first minimizer of
`|key - distance|`: the result is in the scanned list, its distance to
`d` is minimal, and `find?` over the scanned keys for "as close as the
result" returns the result itself (so earlier keys win ties: a later key
replaces the current one only under a strict `<` comparison). -/
lemma foldl_closerKey_spec (d : ℚ) :
    ∀ (l : List ℚ) (a : ℚ),
      (l.foldl (closerKey d) a = a ∨ l.foldl (closerKey d) a ∈ l) ∧
      |l.foldl (closerKey d) a - d| ≤ |a - d| ∧
      (∀ c ∈ l, |l.foldl (closerKey d) a - d| ≤ |c - d|) ∧
      (a :: l).find? (fun c => decide (|c - d| ≤ |l.foldl (closerKey d) a - d|)) =
        some (l.foldl (closerKey d) a)
  | [], a => by simp [List.find?]
  | x :: xs, a => by
    by_cases h : |x - d| < |a - d|
    · have hstep : closerKey d a x = x := by simp [closerKey, h]
      obtain ⟨ihm, ihb, ihall, ihfind⟩ := foldl_closerKey_spec d xs x
      rw [List.foldl_cons, hstep]
      have hr : |xs.foldl (closerKey d) x - d| < |a - d| := ihb.trans_lt h
      refine ⟨?_, ihb.trans h.le, ?_, ?_⟩
      · rcases ihm with hm | hm
        · exact Or.inr (by rw [hm]; exact List.mem_cons_self x xs)
        · exact Or.inr (List.mem_cons_of_mem x hm)
      · rintro c hc
        rcases List.mem_cons.mp hc with rfl | hc
        · exact ihb
        · exact ihall c hc
      · rw [List.find?_cons_of_neg _ (by simpa using not_le.mpr hr)]
        exact ihfind
    · have hstep : closerKey d a x = a := by simp [closerKey, h]
      obtain ⟨ihm, ihb, ihall, ihfind⟩ := foldl_closerKey_spec d xs a
      rw [List.foldl_cons, hstep]
      have hax : |a - d| ≤ |x - d| := not_lt.mp h
      refine ⟨?_, ihb, ?_, ?_⟩
      · rcases ihm with hm | hm
        · exact Or.inl hm
        · exact Or.inr (List.mem_cons_of_mem x hm)
      · rintro c hc
        rcases List.mem_cons.mp hc with rfl | hc
        · exact ihb.trans hax
        · exact ihall c hc
      · by_cases hpa : |a - d| ≤ |xs.foldl (closerKey d) a - d|
        · rw [List.find?_cons_of_pos _ (by simpa using hpa)]
          rw [List.find?_cons_of_pos _ (by simpa using hpa)] at ihfind
          exact ihfind
        · have hpx : ¬ |x - d| ≤ |xs.foldl (closerKey d) a - d| :=
            fun hle => hpa (hax.trans hle)
          rw [List.find?_cons_of_neg _ (by simpa using hpa),
            List.find?_cons_of_neg _ (by simpa using hpx)]
          rw [List.find?_cons_of_neg _ (by simpa using hpa)] at ihfind
          exact ihfind

lemma closestDistance_eq_foldl (d : ℚ) :
    closestDistance d = [2, 5, 10, 15, 21.1, 42.2].foldl (closerKey d) 1 := rfl

lemma distanceKeys_eq : distanceKeys = [1, 2, 5, 10, 15, 21.1, 42.2] := rfl

/-- The three structural properties of the nearest-key selection. -/
lemma closestDistance_spec (d : ℚ) :
    closestDistance d ∈ distanceKeys ∧
    (∀ c ∈ distanceKeys, |closestDistance d - d| ≤ |c - d|) ∧
    distanceKeys.find? (fun c => decide (|c - d| ≤ |closestDistance d - d|)) =
      some (closestDistance d) := by
  obtain ⟨hm, _, hall, hfind⟩ := foldl_closerKey_spec d [2, 5, 10, 15, 21.1, 42.2] 1
  rw [distanceKeys_eq]
  rw [closestDistance_eq_foldl]
  refine ⟨?_, ?_, hfind⟩
  · rcases hm with hm | hm
    · rw [hm]; exact List.mem_cons_self 1 _
    · exact List.mem_cons_of_mem 1 hm
  · rintro c hc
    rcases List.mem_cons.mp hc with rfl | hc
    · exact (foldl_closerKey_spec d [2, 5, 10, 15, 21.1, 42.2] 1).2.1
    · exact hall c hc

/-- C1: the rule engine selects the canonical distance from the fixed
table with the smallest absolute difference to the submitted distance,
ties broken in favour of the earlier table entry (a later entry replaces
the current choice only under strict `<`); if the selected canonical
distance is strictly within 0.5 km of the submission, the result is
valid exactly when the duration in seconds lies within the matched
`[minSeconds, maxSeconds]` bounds inclusive — at each of the seven
canonical distances a duration at either bound is valid and one second
outside is invalid — and on failure the message embeds the matched
distance and the bounds in minutes; otherwise every duration is valid.
The client function (minutes input) agrees with the server check after
the minutes-to-seconds conversion. -/
theorem claim_C1_rule_engine :
    (∀ d : ℚ, closestDistance d ∈ distanceKeys) ∧
    (∀ d : ℚ, ∀ c ∈ distanceKeys, |closestDistance d - d| ≤ |c - d|) ∧
    (∀ d : ℚ, distanceKeys.find?
        (fun c => decide (|c - d| ≤ |closestDistance d - d|)) = some (closestDistance d)) ∧
    (∀ d dur : ℚ, |closestDistance d - d| < 0.5 →
      (activityDurationCheck d dur = none ↔
        (ruleFor (closestDistance d)).1 ≤ dur ∧ dur ≤ (ruleFor (closestDistance d)).2)) ∧
    (∀ d dur : ℚ, |closestDistance d - d| < 0.5 →
      activityDurationCheck d dur ≠ none →
      activityDurationCheck d dur = some (invalidDurationMessage (closestDistance d)
          (ruleFor (closestDistance d)).1 (ruleFor (closestDistance d)).2)) ∧
    (∀ d dur : ℚ, ¬ |closestDistance d - d| < 0.5 → activityDurationCheck d dur = none) ∧
    (validationRules.all fun r =>
      (activityDurationCheck r.1 r.2.1).isNone &&
      (activityDurationCheck r.1 r.2.2).isNone &&
      !(activityDurationCheck r.1 (r.2.1 - 1)).isNone &&
      !(activityDurationCheck r.1 (r.2.2 + 1)).isNone) = true ∧
    (∀ d m : ℚ, validateActivityTime d m = activityDurationCheck d (m * 60)) := by
  refine ⟨fun d => (closestDistance_spec d).1, fun d => (closestDistance_spec d).2.1,
    fun d => (closestDistance_spec d).2.2, ?_, ?_, ?_, by decide, fun d m => rfl⟩
  · intro d dur h
    simp only [activityDurationCheck]
    rw [if_pos h]
    by_cases h2 : dur < (ruleFor (closestDistance d)).1 ∨ dur > (ruleFor (closestDistance d)).2
    · rw [if_pos h2]
      constructor
      · intro hc; exact absurd hc (by simp)
      · rintro ⟨h3, h4⟩
        rcases h2 with h2 | h2
        · exact absurd h3 (not_le.mpr h2)
        · exact absurd h4 (not_le.mpr h2)
    · rw [if_neg h2]
      push_neg at h2
      exact ⟨fun _ => ⟨h2.1, h2.2⟩, fun _ => rfl⟩
  · intro d dur h hne
    simp only [activityDurationCheck] at hne ⊢
    rw [if_pos h] at hne ⊢
    by_cases h2 : dur < (ruleFor (closestDistance d)).1 ∨ dur > (ruleFor (closestDistance d)).2
    · rw [if_pos h2]
    · rw [if_neg h2] at hne
      exact absurd rfl hne
  · intro d dur h
    simp only [activityDurationCheck]
    rw [if_neg h]

/-- Witness for C1 at concrete inputs: 10 km at the 2100 s floor is
valid, one second above the 7200 s ceiling is invalid, 10 km in 2000 s
fails with the exact message, and a non-standard 3.5 km distance is
unconstrained. -/
theorem claim_C1_rule_engine_witness :
    activityDurationCheck 10 2100 = none ∧
    activityDurationCheck 10 7201 ≠ none ∧
    activityDurationCheck 10 2000 =
      some "Invalid duration for 10KM. Duration must be between 35-120 minutes." ∧
    activityDurationCheck 3.5 999999 = none := by
  obtain ⟨-, -, -, h4, h5, h6, -, -⟩ := claim_C1_rule_engine
  refine ⟨?_, ?_, ?_, ?_⟩
  · exact (h4 10 2100 (by decide)).mpr (by decide)
  · intro hc
    exact absurd ((h4 10 7201 (by decide)).mp hc) (by decide)
  · rw [h5 10 2000 (by decide) (by decide)]
    decide
  · exact h6 3.5 999999 (by decide)

/-- C6: a manually submitted candidate with distance ≥ 10 km and
neither `proofLink` nor `proofImage` present (JS-truthy) is rejected and
nothing is persisted; the same candidate with `proofLink` set is
accepted and persisted, provided its duration passes the rule engine. -/
theorem claim_C6_proof_policy :
    ∀ (store : List Activity) (cand : InsertActivity),
      (10 : ℚ) ≤ cand.distance →
      ((truthy cand.proofLink = false → truthy cand.proofImage = false →
        (postActivity store cand).1 = store ∧
        ∃ msg, (postActivity store cand).2 = PostResponse.badRequest msg) ∧
       (truthy cand.proofLink = true →
        activityDurationCheck cand.distance cand.duration = none →
        (postActivity store cand).1 = store ++ [mkStored store cand] ∧
        (postActivity store cand).2 = PostResponse.created (mkStored store cand))) := by
  intro store cand hd
  constructor
  · intro hpl hpi
    unfold postActivity
    cases hdc : activityDurationCheck cand.distance cand.duration with
    | some msg => exact ⟨rfl, msg, rfl⟩
    | none =>
      rw [if_pos ⟨hd, hpl, hpi⟩]
      exact ⟨rfl, _, rfl⟩
  · intro hpl hdc
    unfold postActivity
    rw [hdc]
    have hc : ¬((10 : ℚ) ≤ cand.distance ∧ truthy cand.proofLink = false ∧
        truthy cand.proofImage = false) := by
      rintro ⟨-, h2, -⟩
      rw [hpl] at h2
      cases h2
    rw [if_neg hc]
    exact ⟨rfl, rfl⟩

/-- Witness for C6: a 15.2 km run in 5000 s with no proof is rejected
and leaves the store empty; the same run with a `proofLink` is persisted
and returned as created. -/
theorem claim_C6_proof_policy_witness :
    (postActivity []
        ⟨1, "Running", 0, 15.2, 5000, "Long Run", none, none, none, none, none,
          none, none⟩).1 = [] ∧
    (∃ msg, (postActivity []
        ⟨1, "Running", 0, 15.2, 5000, "Long Run", none, none, none, none, none,
          none, none⟩).2 = PostResponse.badRequest msg) ∧
    (postActivity []
        ⟨1, "Running", 0, 15.2, 5000, "Long Run", none,
          some "https://example.com/proof", none, none, none, none, none⟩).1 =
      [] ++ [mkStored []
        ⟨1, "Running", 0, 15.2, 5000, "Long Run", none,
          some "https://example.com/proof", none, none, none, none, none⟩] ∧
    (postActivity []
        ⟨1, "Running", 0, 15.2, 5000, "Long Run", none,
          some "https://example.com/proof", none, none, none, none, none⟩).2 =
      PostResponse.created (mkStored []
        ⟨1, "Running", 0, 15.2, 5000, "Long Run", none,
          some "https://example.com/proof", none, none, none, none, none⟩) := by
  obtain ⟨h1, h2⟩ := claim_C6_proof_policy []
    ⟨1, "Running", 0, 15.2, 5000, "Long Run", none, none, none, none, none,
      none, none⟩ (by decide)
  obtain ⟨h3, h4⟩ := claim_C6_proof_policy []
    ⟨1, "Running", 0, 15.2, 5000, "Long Run", none,
      some "https://example.com/proof", none, none, none, none, none⟩ (by decide)
  obtain ⟨ha, hb⟩ := h1 (by decide) (by decide)
  obtain ⟨hc, hd⟩ := h4 (by decide) (by decide)
  exact ⟨ha, hb, hc, hd⟩

/-- The `Map` built by `DatabaseStorage.getLeaderboard` holds, under
each key, exactly the activities with that `userId` in encounter
order. -/
lemma groupByUser_foldl (as : List Activity) :
    ∀ (m : ℕ → List Activity) (k : ℕ),
      (as.foldl (fun m a => fun k => if k = a.userId then m k ++ [a] else m k) m) k =
        m k ++ as.filter (fun a => a.userId == k) := by
  induction as with
  | nil => intro m k; simp
  | cons a as ih =>
    intro m k
    rw [List.foldl_cons, ih, List.filter_cons]
    by_cases h : a.userId = k
    · simp [h, List.append_assoc]
    · have h1 : ¬ k = a.userId := fun hk => h hk.symm
      have h2 : (a.userId == k) = false := beq_eq_false_iff_ne.mpr h
      simp [h1, h2]

lemma groupByUser_eq (as : List Activity) (k : ℕ) :
    groupByUser as k = as.filter (fun a => a.userId == k) := by
  unfold groupByUser
  rw [groupByUser_foldl]
  simp

/-- Stability of `orderedInsert` for the leaderboard sort: filtering
down to one `totalDistance` value, the insertion either prepends (its
own value) or leaves the filtered list unchanged. -/
lemma filter_dist_orderedInsert (d : ℚ) (x : LeaderboardEntry)
    (s : List LeaderboardEntry) :
    (List.orderedInsert distDesc x s).filter (fun e => e.totalDistance == d) =
      if x.totalDistance == d then
        x :: s.filter (fun e => e.totalDistance == d)
      else s.filter (fun e => e.totalDistance == d) := by
  induction s with
  | nil =>
    cases hpx : (x.totalDistance == d) <;>
      simp [List.orderedInsert, List.filter_cons, hpx]
  | cons y ys ih =>
    simp only [List.orderedInsert]
    by_cases hr : distDesc x y
    · rw [if_pos hr]
      cases hpx : (x.totalDistance == d) <;> cases hpy : (y.totalDistance == d) <;>
        simp [List.filter_cons, hpx, hpy]
    · rw [if_neg hr]
      by_cases hpx : x.totalDistance = d
      · have hpy : (y.totalDistance == d) = false := by
          refine beq_eq_false_iff_ne.mpr (fun hyd => hr ?_)
          unfold distDesc
          rw [hyd, hpx]
        have hpx' : (x.totalDistance == d) = true := beq_iff_eq.mpr hpx
        simp [List.filter_cons, hpy, hpx', ih]
      · have hpx' : (x.totalDistance == d) = false := beq_eq_false_iff_ne.mpr hpx
        cases hpy : (y.totalDistance == d) <;>
          simp [List.filter_cons, hpy, hpx', ih]

/-- Stability of the leaderboard sort: within one `totalDistance` value
the sorted order is the input-encounter order. -/
lemma filter_dist_insertionSort (d : ℚ) (l : List LeaderboardEntry) :
    (List.insertionSort distDesc l).filter (fun e => e.totalDistance == d) =
      l.filter (fun e => e.totalDistance == d) := by
  induction l with
  | nil => rfl
  | cons x xs ih =>
    simp only [List.insertionSort]
    rw [filter_dist_orderedInsert, List.filter_cons]
    cases hpx : (x.totalDistance == d) <;> simp [hpx, ih]

/-- One user's entry is identical in the two implementations: the
in-memory path type-filters the date-sorted per-user list, the database
path user-filters the type-filtered list; the two lists are permutations
of each other, so length and sums agree. -/
lemma memEntry_eq_dbEntry (store : List Activity) (type : String) (u : StoredUser) :
    memEntry store type u =
      dbEntry (groupByUser (if type = "all" then store
        else store.filter (fun a => a.type == type))) u := by
  have hperm : (if type = "all" then listActivitiesByUser store u.id
      else (listActivitiesByUser store u.id).filter (fun a => a.type == type)).Perm
      (groupByUser (if type = "all" then store
        else store.filter (fun a => a.type == type)) u.id) := by
    rw [groupByUser_eq]
    by_cases ht : type = "all"
    · rw [if_pos ht, if_pos ht]
      exact List.perm_insertionSort dateDesc _
    · rw [if_neg ht, if_neg ht]
      have h1 : ((listActivitiesByUser store u.id).filter
          (fun a => a.type == type)).Perm
          ((store.filter (fun a => a.userId == u.id)).filter (fun a => a.type == type)) :=
        (List.perm_insertionSort dateDesc _).filter _
      have h2 : (store.filter (fun a => a.userId == u.id)).filter
            (fun a => a.type == type) =
          (store.filter (fun a => a.type == type)).filter (fun a => a.userId == u.id) := by
        rw [List.filter_filter, List.filter_filter]
        exact List.filter_congr (fun a _ => by rw [Bool.and_comm])
      rw [← h2]
      exact h1
  simp only [memEntry, dbEntry]
  rw [hperm.length_eq, (hperm.map (·.distance)).sum_eq, (hperm.map (·.duration)).sum_eq]

/-- C2: `getLeaderboard` returns the gender-filtered users paired with
the sum of distance, sum of duration and count of their type-filtered
activities, omits every user with zero matching activities, sorts
descending by total distance with ties left in input-encounter order
(stable sort), and truncates to the first `limit` entries; in the
concrete population below, user B (one 25.0 km activity) ranks above
user A (two activities summing to 20.0 km) and user C (no activities)
does not appear. -/
theorem claim_C2_leaderboard :
    (∀ usersL store type gender limit,
      dbGetLeaderboard usersL store type gender limit =
        (List.insertionSort distDesc
          (leaderboardEntries usersL store type gender)).take limit) ∧
    (∀ (store : List Activity) (type : String) (u : StoredUser),
      dbEntry (groupByUser (if type = "all" then store
          else store.filter (fun a => a.type == type))) u =
        (if ((if type = "all" then store
            else store.filter (fun a => a.type == type)).filter
              (fun a => a.userId == u.id)).length = 0 then none
         else some ⟨u.id, displayName u,
           (((if type = "all" then store
              else store.filter (fun a => a.type == type)).filter
                (fun a => a.userId == u.id)).map (·.distance)).sum,
           (((if type = "all" then store
              else store.filter (fun a => a.type == type)).filter
                (fun a => a.userId == u.id)).map (·.duration)).sum,
           ((if type = "all" then store
             else store.filter (fun a => a.type == type)).filter
               (fun a => a.userId == u.id)).length⟩)) ∧
    (∀ usersL store type gender limit,
      (dbGetLeaderboard usersL store type gender limit).Pairwise distDesc) ∧
    (∀ usersL store type gender limit,
      (dbGetLeaderboard usersL store type gender limit).length ≤ limit) ∧
    (∀ usersL store type gender limit e,
      e ∈ dbGetLeaderboard usersL store type gender limit → 0 < e.activities) ∧
    (∀ usersL store type gender limit uid,
      (if type = "all" then store
        else store.filter (fun a => a.type == type)).filter
          (fun a => a.userId == uid) = [] →
      ∀ e ∈ dbGetLeaderboard usersL store type gender limit, e.userId ≠ uid) ∧
    (∀ usersL store type gender (d : ℚ),
      (List.insertionSort distDesc
        (leaderboardEntries usersL store type gender)).filter
          (fun e => e.totalDistance == d) =
        (leaderboardEntries usersL store type gender).filter
          (fun e => e.totalDistance == d)) ∧
    (dbGetLeaderboard
        [⟨1, 1, "a@x.com", "Alice", "female", none⟩,
         ⟨2, 1, "b@x.com", "Bob", "male", none⟩,
         ⟨3, 1, "c@x.com", "Cara", "female", none⟩]
        [⟨1, 1, "Running", 0, 12, 3600, "r1", none, none, none⟩,
         ⟨2, 1, "Running", 1, 8, 2400, "r2", none, none, none⟩,
         ⟨3, 2, "Running", 2, 25, 7200, "r3", none, none, none⟩]
        "all" "all" 10 =
      [⟨2, "Bob", 25, 7200, 1⟩, ⟨1, "Alice", 20, 6000, 2⟩]) := by
  have hmem : ∀ usersL store type gender limit e,
      e ∈ dbGetLeaderboard usersL store type gender limit →
      ∃ u, u ∈ (if gender = "all" then usersL
          else usersL.filter (fun u => u.gender == gender)) ∧
        e.userId = u.id ∧ 0 < e.activities ∧
        (groupByUser (if type = "all" then store
          else store.filter (fun a => a.type == type)) u.id).length ≠ 0 := by
    intro usersL store type gender limit e he
    have he1 : e ∈ List.insertionSort distDesc
        (leaderboardEntries usersL store type gender) := List.mem_of_mem_take he
    have he2 : e ∈ leaderboardEntries usersL store type gender :=
      (List.perm_insertionSort distDesc _).mem_iff.mp he1
    simp only [leaderboardEntries, List.mem_filterMap] at he2
    obtain ⟨u, hu, hentry⟩ := he2
    simp only [dbEntry] at hentry
    by_cases h0 : (groupByUser (if type = "all" then store
        else store.filter (fun a => a.type == type)) u.id).length = 0
    · rw [if_pos h0] at hentry
      exact absurd hentry (by simp)
    · rw [if_neg h0] at hentry
      injection hentry with h
      refine ⟨u, hu, ?_, ?_, h0⟩
      · rw [← h]
      · rw [← h]
        exact Nat.pos_of_ne_zero h0
  refine ⟨fun _ _ _ _ _ => rfl, ?_, ?_, ?_, ?_, ?_,
    fun usersL store type gender d => filter_dist_insertionSort d _, by decide⟩
  · intro store type u
    simp only [dbEntry, groupByUser_eq]
  · intro usersL store type gender limit
    exact List.Pairwise.sublist (List.take_sublist _ _)
      (List.sorted_insertionSort distDesc _)
  · intro usersL store type gender limit
    exact (List.length_take _ _).le.trans (min_le_left _ _)
  · intro usersL store type gender limit e he
    obtain ⟨u, -, -, hpos, -⟩ := hmem usersL store type gender limit e he
    exact hpos
  · intro usersL store type gender limit uid hempty e he
    obtain ⟨u, -, hid, -, hne⟩ := hmem usersL store type gender limit e he
    intro huid
    rw [groupByUser_eq] at hne
    rw [hid] at huid
    rw [huid, hempty] at hne
    exact hne rfl

/-- Witness for C2: in the concrete three-user population, Bob's entry
is a member of the result with a positive activity count, and no entry
in the result belongs to the activity-less user 3. -/
theorem claim_C2_leaderboard_witness :
    0 < (⟨2, "Bob", 25, 7200, 1⟩ : LeaderboardEntry).activities ∧
    (⟨2, "Bob", 25, 7200, 1⟩ : LeaderboardEntry).userId ≠ 3 := by
  obtain ⟨-, -, -, -, h5, h6, -, -⟩ := claim_C2_leaderboard
  constructor
  · exact h5
      [⟨1, 1, "a@x.com", "Alice", "female", none⟩,
       ⟨2, 1, "b@x.com", "Bob", "male", none⟩,
       ⟨3, 1, "c@x.com", "Cara", "female", none⟩]
      [⟨1, 1, "Running", 0, 12, 3600, "r1", none, none, none⟩,
       ⟨2, 1, "Running", 1, 8, 2400, "r2", none, none, none⟩,
       ⟨3, 2, "Running", 2, 25, 7200, "r3", none, none, none⟩]
      "all" "all" 10 ⟨2, "Bob", 25, 7200, 1⟩ (by decide)
  · exact h6
      [⟨1, 1, "a@x.com", "Alice", "female", none⟩,
       ⟨2, 1, "b@x.com", "Bob", "male", none⟩,
       ⟨3, 1, "c@x.com", "Cara", "female", none⟩]
      [⟨1, 1, "Running", 0, 12, 3600, "r1", none, none, none⟩,
       ⟨2, 1, "Running", 1, 8, 2400, "r2", none, none, none⟩,
       ⟨3, 2, "Running", 2, 25, 7200, "r3", none, none, none⟩]
      "all" "all" 10 3 (by decide) ⟨2, "Bob", 25, 7200, 1⟩ (by decide)

/-- C10: on identical store contents and identical `(type, gender,
limit)` arguments, `MemStorage.getLeaderboard` and
`DatabaseStorage.getLeaderboard` return equal results — same entries,
same totals and counts, same order. -/
theorem claim_C10_mem_db_leaderboard_equal :
    ∀ usersL store type gender limit,
      memGetLeaderboard usersL store type gender limit =
        dbGetLeaderboard usersL store type gender limit := by
  intro usersL store type gender limit
  have hf : memEntry store type =
      dbEntry (groupByUser (if type = "all" then store
        else store.filter (fun a => a.type == type))) :=
    funext (memEntry_eq_dbEntry store type)
  simp only [memGetLeaderboard, dbGetLeaderboard, leaderboardEntries, hf]

/-- C4: when `expires_at` is in the past (`now > expires_at`), the
freshness step performs exactly one refresh call and persists the
refreshed envelope onto the owning user before the activities fetch,
which uses the new access token; when `expires_at` is not yet reached
(`now < expires_at`), no refresh call happens and the stored envelope is
untouched (the trace has no persist event). -/
theorem claim_C4_token_freshness :
    ∀ (now : ℚ) (uid : ℕ) (t : TokenData)
      (oracle : String → Except String TokenTriple) (triple : TokenTriple),
      (now > t.expires_at → oracle t.refresh_token = .ok triple →
        tokenFreshnessStep now uid t oracle =
          ([.refreshCall t.refresh_token,
            .persistToken uid (storedOfTriple triple),
            .fetchActivities triple.accessToken], some triple.accessToken)) ∧
      (now > t.expires_at → oracle t.refresh_token = .ok triple →
        ((tokenFreshnessStep now uid t oracle).1.countP isRefreshCall) = 1) ∧
      (now < t.expires_at →
        tokenFreshnessStep now uid t oracle =
          ([.fetchActivities t.access_token], some t.access_token)) ∧
      (now < t.expires_at →
        ((tokenFreshnessStep now uid t oracle).1.countP isRefreshCall) = 0) := by
  intro now uid t oracle triple
  refine ⟨?_, ?_, ?_, ?_⟩
  · intro h ho
    unfold tokenFreshnessStep
    rw [if_pos h, ho]
  · intro h ho
    unfold tokenFreshnessStep
    rw [if_pos h, ho]
    rfl
  · intro h
    unfold tokenFreshnessStep
    rw [if_neg (not_lt.mpr h.le)]
  · intro h
    unfold tokenFreshnessStep
    rw [if_neg (not_lt.mpr h.le)]
    rfl

/-- Witness for C4: an envelope expired at unix time 100 seen at 200 is
refreshed once, persisted, and the fetch uses the new token; the same
envelope seen at 50 produces no refresh and fetches with the stored
token. -/
theorem claim_C4_token_freshness_witness :
    tokenFreshnessStep 200 1 ⟨"oldA", "oldR", 100, none⟩
        (fun _ => .ok ⟨"newA", "newR", 9999⟩) =
      ([.refreshCall "oldR", .persistToken 1 (storedOfTriple ⟨"newA", "newR", 9999⟩),
        .fetchActivities "newA"], some "newA") ∧
    tokenFreshnessStep 50 1 ⟨"oldA", "oldR", 100, none⟩
        (fun _ => .ok ⟨"newA", "newR", 9999⟩) =
      ([.fetchActivities "oldA"], some "oldA") := by
  obtain ⟨h1, -, -, -⟩ := claim_C4_token_freshness 200 1 ⟨"oldA", "oldR", 100, none⟩
    (fun _ => .ok ⟨"newA", "newR", 9999⟩) ⟨"newA", "newR", 9999⟩
  obtain ⟨-, -, h3, -⟩ := claim_C4_token_freshness 50 1 ⟨"oldA", "oldR", 100, none⟩
    (fun _ => .ok ⟨"newA", "newR", 9999⟩) ⟨"newA", "newR", 9999⟩
  exact ⟨h1 (by decide) rfl, h3 (by decide)⟩

/-- Counterexample to C5 as stated: refreshing an expired envelope whose
`athlete` is set persists the bare new triple — the persisted envelope's
`athlete` is `none`, not the preserved old value. -/
theorem claim_C5_counterexample :
    (tokenFreshnessStep 200 1 ⟨"oldA", "oldR", 100, some ⟨7⟩⟩
        (fun _ => .ok ⟨"newA", "newR", 9999⟩)).1 =
      [.refreshCall "oldR",
       .persistToken 1 (.valid ⟨"newA", "newR", 9999, none⟩),
       .fetchActivities "newA"] ∧
    StoredToken.valid ⟨"newA", "newR", 9999, none⟩ ≠
      StoredToken.valid ⟨"newA", "newR", 9999, some ⟨7⟩⟩ := by
  decide

/-- C5 (amended): refreshing an expired envelope replaces the entire
persisted envelope by the provider's new
`{accessToken, refreshToken, expiresAt}` triple; the `athlete` field is
dropped (the persisted envelope has `athlete = none`), not preserved. -/
theorem claim_C5_amended_refresh_replaces :
    ∀ (now : ℚ) (uid : ℕ) (t : TokenData)
      (oracle : String → Except String TokenTriple) (triple : TokenTriple),
      now > t.expires_at → oracle t.refresh_token = .ok triple →
      (tokenFreshnessStep now uid t oracle).1 =
        [.refreshCall t.refresh_token,
         .persistToken uid
           (.valid ⟨triple.accessToken, triple.refreshToken, triple.expiresAt, none⟩),
         .fetchActivities triple.accessToken] := by
  intro now uid t oracle triple h ho
  unfold tokenFreshnessStep
  rw [if_pos h, ho]
  rfl

/-- Witness for the amended C5 at the counterexample's input. -/
theorem claim_C5_amended_refresh_replaces_witness :
    (tokenFreshnessStep 200 1 ⟨"oldA", "oldR", 100, some ⟨7⟩⟩
        (fun _ => .ok ⟨"newA", "newR", 9999⟩)).1 =
      [.refreshCall "oldR",
       .persistToken 1 (.valid ⟨"newA", "newR", 9999, none⟩),
       .fetchActivities "newA"] :=
  claim_C5_amended_refresh_replaces 200 1 ⟨"oldA", "oldR", 100, some ⟨7⟩⟩
    (fun _ => .ok ⟨"newA", "newR", 9999⟩) ⟨"newA", "newR", 9999⟩ (by decide) rfl

/-- C7: an event whose `object_type` is not `"activity"`, or whose
`aspect_type` is not `"create"`, leaves both the user store and the
activity store untouched and terminates with a normal ignore outcome,
not a failure. -/
theorem claim_C7_webhook_filtering :
    ∀ (now : ℚ) (oracle : String → Except String TokenTriple)
      (fetched : Except String (List StravaActivity))
      (usersL : List StoredUser) (store : List Activity) (event : WebhookEvent),
      (event.object_type ≠ "activity" →
        processWebhookEvent now oracle fetched usersL store event =
          (usersL, store, .ok .ignoredObjectType)) ∧
      (event.object_type = "activity" → event.aspect_type ≠ "create" →
        processWebhookEvent now oracle fetched usersL store event =
          (usersL, store, .ok .ignoredAspectType)) := by
  intro now oracle fetched usersL store event
  constructor
  · intro h
    unfold processWebhookEvent
    rw [if_pos h]
  · intro h1 h2
    unfold processWebhookEvent
    rw [if_neg (fun hn => hn h1), if_pos h2]

/-- Witness for C7: an `update` event on an activity and a `create`
event on a non-activity are both ignored without touching the stores. -/
theorem claim_C7_webhook_filtering_witness :
    processWebhookEvent 0 (fun _ => .error "e") (.error "e") [] []
        ⟨"activity", 1, "update", 2⟩ = ([], [], .ok .ignoredAspectType) ∧
    processWebhookEvent 0 (fun _ => .error "e") (.error "e") [] []
        ⟨"athlete", 1, "create", 2⟩ = ([], [], .ok .ignoredObjectType) := by
  obtain ⟨-, h2⟩ := claim_C7_webhook_filtering 0 (fun _ => .error "e") (.error "e")
    [] [] ⟨"activity", 1, "update", 2⟩
  obtain ⟨h1, -⟩ := claim_C7_webhook_filtering 0 (fun _ => .error "e") (.error "e")
    [] [] ⟨"athlete", 1, "create", 2⟩
  exact ⟨h2 rfl (by decide), h1 (by decide)⟩

/-- Counterexample to C9 as stated: with `hub.mode` different from
`"subscribe"`, the handler responds 403 even though the supplied token
matches the secret, so "echo iff the token matches" fails. -/
theorem claim_C9_counterexample :
    ¬ ((webhookVerify "tok0" (some "unsubscribe") (some "tok0") (some "ch") =
        VerifyResponse.challenge (some "ch")) ↔
       (some "tok0" : Option String) = some "tok0") := by
  decide

/-- C9 (amended): the handler echoes `hub.challenge` iff `hub.mode` is
`"subscribe"` AND `hub.verify_token` matches the pre-shared secret;
otherwise it responds with the 403 verification failure. -/
theorem claim_C9_amended_verification :
    ∀ (secret : String) (mode token challenge : Option String),
      (webhookVerify secret mode token challenge =
          VerifyResponse.challenge challenge ↔
        (mode = some "subscribe" ∧ token = some secret)) ∧
      (¬ (mode = some "subscribe" ∧ token = some secret) →
        webhookVerify secret mode token challenge = VerifyResponse.forbidden) := by
  intro secret mode token challenge
  unfold webhookVerify
  by_cases h : mode = some "subscribe" ∧ token = some secret
  · rw [if_pos h]
    exact ⟨⟨fun _ => h, fun _ => rfl⟩, fun hn => absurd h hn⟩
  · rw [if_neg h]
    refine ⟨⟨fun hc => ?_, fun hh => absurd hh h⟩, fun _ => rfl⟩
    cases hc

/-- Witness for the amended C9: a matching subscribe handshake echoes
the challenge; a missing mode is rejected with 403. -/
theorem claim_C9_amended_verification_witness :
    webhookVerify "t" (some "subscribe") (some "t") (some "c") =
      VerifyResponse.challenge (some "c") ∧
    webhookVerify "t" none (some "t") (some "c") = VerifyResponse.forbidden := by
  obtain ⟨hiff, -⟩ := claim_C9_amended_verification "t" (some "subscribe")
    (some "t") (some "c")
  obtain ⟨-, hneg⟩ := claim_C9_amended_verification "t" none (some "t") (some "c")
  exact ⟨hiff.mpr (by decide), hneg (by decide)⟩

lemma csvImportFrom_cons (p : CsvRow → Except String CsvRow) (c : ℕ)
    (st : List StoredUser × ℕ × List (ℕ × String)) (i : ℕ) (r : CsvRow)
    (rows : List CsvRow) :
    csvImportFrom p c st i (r :: rows) =
      csvImportFrom p c (csvStep p c st (i, r)) (i + 1) rows := rfl

/-- Each CSV row contributes exactly one outcome: either the success
counter or the error list grows by one, and errors are only ever
appended. -/
lemma csvStep_outcome (p : CsvRow → Except String CsvRow) (c : ℕ)
    (st : List StoredUser × ℕ × List (ℕ × String)) (ir : ℕ × CsvRow) :
    (csvStep p c st ir).2.1 + (csvStep p c st ir).2.2.length =
      st.2.1 + st.2.2.length + 1 ∧
    ∃ tail, (csvStep p c st ir).2.2 = st.2.2 ++ tail := by
  unfold csvStep
  cases hp : p ir.2 with
  | error e =>
    exact ⟨by simp; omega, [(ir.1 + 1, e)], rfl⟩
  | ok v =>
    dsimp only
    by_cases hf : (st.1.find? (fun u => u.email == v.email)).isSome
    · rw [if_pos hf]
      exact ⟨by simp; omega,
        [(ir.1 + 1, "User with email " ++ v.email ++ " already exists")], rfl⟩
    · rw [if_neg hf]
      exact ⟨by simp; omega, [], by simp⟩

lemma csvImportFrom_outcome (p : CsvRow → Except String CsvRow) (c : ℕ) :
    ∀ (rows : List CsvRow) (st : List StoredUser × ℕ × List (ℕ × String)) (i : ℕ),
      (csvImportFrom p c st i rows).2.1 + (csvImportFrom p c st i rows).2.2.length =
        st.2.1 + st.2.2.length + rows.length ∧
      ∃ tail, (csvImportFrom p c st i rows).2.2 = st.2.2 ++ tail := by
  intro rows
  induction rows with
  | nil => intro st i; exact ⟨by simp [csvImportFrom], [], by simp [csvImportFrom]⟩
  | cons r rows ih =>
    intro st i
    obtain ⟨h1, t1, ht1⟩ := csvStep_outcome p c st (i, r)
    obtain ⟨h2, t2, ht2⟩ := ih (csvStep p c st (i, r)) (i + 1)
    constructor
    · rw [csvImportFrom_cons, h2, h1, List.length_cons]
      omega
    · refine ⟨t1 ++ t2, ?_⟩
      rw [csvImportFrom_cons, ht2, ht1, List.append_assoc]

/-- The `imported` counter of the sync loop is a pure offset: the final
store does not depend on the counter's start value, and the counter adds
up. -/
lemma syncLoop_counter (uid : ℕ) (ua : List Activity) :
    ∀ (xs : List StravaActivity) (store : List Activity) (n : ℕ),
      (syncLoop uid ua store n xs).1 = (syncLoop uid ua store 0 xs).1 ∧
      (syncLoop uid ua store n xs).2 = n + (syncLoop uid ua store 0 xs).2 := by
  intro xs
  induction xs with
  | nil => intro store n; simp [syncLoop]
  | cons x xs ih =>
    intro store n
    unfold syncLoop
    rw [List.foldl_cons, List.foldl_cons]
    unfold syncStep
    by_cases h1 : x.type ≠ "Run"
    · rw [if_pos h1, if_pos h1]
      exact ih store n
    · rw [if_neg h1, if_neg h1]
      by_cases h2 : 0 < (ua.filter
          (fun b => storedExternalId b == some (toString x.id))).length
      · rw [if_pos h2, if_pos h2]
        exact ih store n
      · rw [if_neg h2, if_neg h2]
        obtain ⟨ha, hb⟩ := ih (createActivity store (convertStravaActivity uid x)) (n + 1)
        obtain ⟨hc, hd⟩ := ih (createActivity store (convertStravaActivity uid x)) 1
        constructor
        · show (syncLoop uid ua _ (n + 1) xs).1 = (syncLoop uid ua _ (0 + 1) xs).1
          rw [ha, Nat.zero_add, hc]
        · show (syncLoop uid ua _ (n + 1) xs).2 = n + (syncLoop uid ua _ (0 + 1) xs).2
          rw [hb, Nat.zero_add, hd]
          omega

/-- C8: batch candidates are processed independently.  CSV import over
`xs ++ ys` equals import of `xs` followed by import of `ys` from the
resulting state (so no row's failure aborts later rows), every row
yields exactly one outcome (`success + errors.length = rows.length`),
errors are reported per row (only appended); the sync loop likewise
composes over list append and its `imported` counter accumulates. -/
theorem claim_C8_batch_independence :
    (∀ (parseRow : CsvRow → Except String CsvRow) (clientId : ℕ)
       (st : List StoredUser × ℕ × List (ℕ × String)) (i₀ : ℕ)
       (xs ys : List CsvRow),
      csvImportFrom parseRow clientId st i₀ (xs ++ ys) =
        csvImportFrom parseRow clientId (csvImportFrom parseRow clientId st i₀ xs)
          (i₀ + xs.length) ys) ∧
    (∀ (parseRow : CsvRow → Except String CsvRow) (clientId : ℕ)
       (usersL : List StoredUser) (rows : List CsvRow),
      (csvImport parseRow clientId usersL rows).2.1 +
        (csvImport parseRow clientId usersL rows).2.2.length = rows.length) ∧
    (∀ (parseRow : CsvRow → Except String CsvRow) (clientId : ℕ)
       (st : List StoredUser × ℕ × List (ℕ × String)) (i₀ : ℕ)
       (rows : List CsvRow), ∃ tail,
      (csvImportFrom parseRow clientId st i₀ rows).2.2 = st.2.2 ++ tail) ∧
    (∀ (uid : ℕ) (ua store : List Activity) (n : ℕ)
       (xs ys : List StravaActivity),
      syncLoop uid ua store n (xs ++ ys) =
        syncLoop uid ua (syncLoop uid ua store n xs).1
          (syncLoop uid ua store n xs).2 ys) ∧
    (∀ (uid : ℕ) (ua store : List Activity) (n : ℕ) (xs : List StravaActivity),
      (syncLoop uid ua store n xs).2 = n + (syncLoop uid ua store 0 xs).2) := by
  refine ⟨?_, ?_, ?_, ?_, ?_⟩
  · intro parseRow clientId st i₀ xs ys
    unfold csvImportFrom
    rw [List.enumFrom_append, List.foldl_append]
  · intro parseRow clientId usersL rows
    have h := (csvImportFrom_outcome parseRow clientId rows (usersL, 0, []) 0).1
    simpa [csvImport] using h
  · intro parseRow clientId st i₀ rows
    exact (csvImportFrom_outcome parseRow clientId rows st i₀).2
  · intro uid ua store n xs ys
    unfold syncLoop
    rw [List.foldl_append]
  · intro uid ua store n xs
    exact (syncLoop_counter uid ua xs store n).2

/-- C3 fails on the code: the `activities` table (shared schema and
migration `0000_common_warpath.sql`) has no `external_id` column, so the
`externalId` read on every stored row yields `undefined` and the
duplicate checks of both import paths compare `undefined` to the remote
id — they never match.  Re-importing the same remote activity (run 99
for user 5, store initially empty) therefore inserts a second copy: the
second sync call counts another import and the stored activity count
grows to 2, and re-delivering the same webhook `create` event ends in
`imported` again, never in the duplicate skip the claim (and spec
§4.2/§8) requires. -/
theorem claim_C3_dedup_never_matches :
    (∀ b : Activity, (storedExternalId b == some "99") = false) ∧
    syncCall [] 5 [⟨99, "Run", 0, 5000, 1500, "Morning", none, none, 10, none⟩] =
      (createActivity [] (convertStravaActivity 5
        ⟨99, "Run", 0, 5000, 1500, "Morning", none, none, 10, none⟩), 1) ∧
    syncCall (createActivity [] (convertStravaActivity 5
        ⟨99, "Run", 0, 5000, 1500, "Morning", none, none, 10, none⟩)) 5
        [⟨99, "Run", 0, 5000, 1500, "Morning", none, none, 10, none⟩] =
      (createActivity
        (createActivity [] (convertStravaActivity 5
          ⟨99, "Run", 0, 5000, 1500, "Morning", none, none, 10, none⟩))
        (convertStravaActivity 5
          ⟨99, "Run", 0, 5000, 1500, "Morning", none, none, 10, none⟩), 1) ∧
    (syncCall (createActivity [] (convertStravaActivity 5
        ⟨99, "Run", 0, 5000, 1500, "Morning", none, none, 10, none⟩)) 5
        [⟨99, "Run", 0, 5000, 1500, "Morning", none, none, 10, none⟩]).1.length = 2 ∧
    processWebhookEvent 500 (fun _ => .error "down")
        (.ok [⟨99, "Run", 0, 5000, 1500, "Morning", none, none, 10, none⟩])
        [⟨5, 1, "e@x.com", "U", "male",
          some (.valid ⟨"acc", "ref", 1000, some ⟨42⟩⟩)⟩] []
        ⟨"activity", 99, "create", 42⟩ =
      ([⟨5, 1, "e@x.com", "U", "male",
          some (.valid ⟨"acc", "ref", 1000, some ⟨42⟩⟩)⟩],
       createActivity [] (convertStravaActivity 5
         ⟨99, "Run", 0, 5000, 1500, "Morning", none, none, 10, none⟩),
       .ok .imported) ∧
    processWebhookEvent 500 (fun _ => .error "down")
        (.ok [⟨99, "Run", 0, 5000, 1500, "Morning", none, none, 10, none⟩])
        [⟨5, 1, "e@x.com", "U", "male",
          some (.valid ⟨"acc", "ref", 1000, some ⟨42⟩⟩)⟩]
        (createActivity [] (convertStravaActivity 5
          ⟨99, "Run", 0, 5000, 1500, "Morning", none, none, 10, none⟩))
        ⟨"activity", 99, "create", 42⟩ =
      ([⟨5, 1, "e@x.com", "U", "male",
          some (.valid ⟨"acc", "ref", 1000, some ⟨42⟩⟩)⟩],
       createActivity
         (createActivity [] (convertStravaActivity 5
           ⟨99, "Run", 0, 5000, 1500, "Morning", none, none, 10, none⟩))
         (convertStravaActivity 5
           ⟨99, "Run", 0, 5000, 1500, "Morning", none, none, 10, none⟩),
       .ok .imported) := by
  refine ⟨fun b => rfl, ?_, ?_, ?_, ?_, ?_⟩ <;> decide

end RatReducible

end FitTrack
